import Mathlib

/-!
Shallow embedding of the Django example application under
packages/django-rnx/example_app: the four view handlers of
example_app/views.py (index, form_example, components_example,
plugins_example) together with the ContactForm validation they rely on.
Framework behaviour the views depend on (CharField whitespace stripping,
required and max_length checks, EmailField validation, BooleanField with
required set to false, QueryDict lookup returning the last value for a
key) is embedded according to the framework's documented semantics, since
the framework itself is external to the repository.
-/

namespace RnxViews

/-- An instance of the ContactForm class from views.py: either constructed
with no data (the non-POST branch, `ContactForm()`) or bound to the
submitted POST data (`ContactForm(request.POST)`). -/
inductive ContactForm where
  | unbound
  | bound (data : List (String × String))
deriving DecidableEq, Repr

/-- A value appearing in a template context passed to render: strings,
integers, lists, records with ordered string keys, and a form instance
(the form view places the ContactForm object in its context). -/
inductive Val where
  | str (s : String)
  | int (z : Int)
  | list (xs : List Val)
  | obj (fields : List (String × Val))
  | form (f : ContactForm)

/-- The result of a call to django.shortcuts.render as the views use it:
the chosen template name and the context mapping handed to it. -/
structure Response where
  template : String
  context : List (String × Val)

/-- An incoming HTTP request as the views consult it: the method string
and the POST body as an ordered multimap of field names to values. -/
structure HttpRequest where
  method : String
  postData : List (String × String)
deriving DecidableEq, Repr

/-- QueryDict.get of the framework: the last value submitted under the
key, or none when the key is absent. -/
def postGet (data : List (String × String)) (k : String) : Option String :=
  ((data.filter (fun p => p.1 == k)).getLast?).map Prod.snd

/-- Python str.strip as CharField applies it to incoming text: remove
leading and trailing whitespace characters. -/
def pyStrip (s : String) : String :=
  String.mk (((s.toList.dropWhile Char.isWhitespace).reverse.dropWhile
    Char.isWhitespace).reverse)

/-- Split a character list on a separator character; always returns at
least one (possibly empty) part, like Python str.split. -/
def splitOnChar (c : Char) : List Char → List (List Char)
  | [] => [[]]
  | x :: xs =>
    match splitOnChar c xs with
    | [] => if x == c then [[], [x]] else [[x]]
    | y :: ys => if x == c then [] :: y :: ys else (x :: y) :: ys

/-- Join character-list parts with a separator list between them,
inverse of splitting. -/
def joinWith (sep : List Char) : List (List Char) → List Char
  | [] => []
  | [p] => p
  | p :: q :: rest => p ++ sep ++ joinWith sep (q :: rest)

/-- Characters the framework's email validator accepts inside an unquoted
atom of the local part (alphanumerics and the common special characters;
quoted local parts and IP-literal domains are not modelled). -/
def isAtomChar (c : Char) : Bool :=
  c.isAlphanum || c == '!' || c == '#' || c == '$' || c == '%' ||
  c == '&' || c == '*' || c == '+' || c == '/' || c == '=' ||
  c == '?' || c == '^' || c == '_' || c == '|' || c == '~' || c == '-'

/-- Local part of an email: one or more dot-separated nonempty atoms. -/
def validLocalPart (l : List Char) : Bool :=
  (splitOnChar '.' l).all (fun p => !p.isEmpty && p.all isAtomChar)

/-- A hostname label: nonempty, at most 63 characters, alphanumerics and
hyphens only, beginning and ending with an alphanumeric. -/
def validLabel (l : List Char) : Bool :=
  !l.isEmpty && decide (l.length ≤ 63) &&
  l.all (fun c => c.isAlphanum || c == '-') &&
  l.head?.any Char.isAlphanum && l.getLast?.any Char.isAlphanum

/-- Domain part of an email: at least two dot-separated valid labels. -/
def validDomain (l : List Char) : Bool :=
  let labels := splitOnChar '.' l
  decide (2 ≤ labels.length) && labels.all validLabel

/-- The framework's email validator: split at the last at-sign (rsplit),
check the local part and the domain part. A string with no at-sign is
invalid. -/
def validEmail (s : String) : Bool :=
  match (splitOnChar '@' s.toList).reverse with
  | [] => false
  | [_] => false
  | dom :: locs => validLocalPart (joinWith ['@'] locs.reverse) && validDomain dom

/-- Cleaning of the name field (CharField, max_length 100, required):
a missing value becomes the empty string, the value is stripped, an empty
result is a required error, a result longer than 100 characters is a
max_length error, otherwise the stripped value is the cleaned value. -/
def cleanName (v : Option String) : Except String String :=
  let s := pyStrip (v.getD "")
  if s = "" then Except.error "required"
  else if 100 < s.length then Except.error "max_length"
  else Except.ok s

/-- Cleaning of the email field (EmailField, required): stripped, an
empty result is a required error, a value the email validator rejects is
an invalid error, otherwise cleaned. -/
def cleanEmail (v : Option String) : Except String String :=
  let s := pyStrip (v.getD "")
  if s = "" then Except.error "required"
  else if validEmail s then Except.ok s
  else Except.error "invalid"

/-- Cleaning of the message field (CharField with a Textarea widget,
required): stripped, an empty result is a required error. -/
def cleanMessage (v : Option String) : Except String String :=
  let s := pyStrip (v.getD "")
  if s = "" then Except.error "required" else Except.ok s

/-- ASCII lowering of one character, as Python str.lower acts on the
checkbox strings the widget compares. -/
def lowerChar (c : Char) : Char :=
  if 65 ≤ c.toNat && c.toNat ≤ 90 then Char.ofNat (c.toNat + 32) else c

/-- ASCII lowering of a string. -/
def pyLower (s : String) : String :=
  String.mk (s.toList.map lowerChar)

/-- Cleaning of the subscribe field (BooleanField, required set to false,
checkbox widget): an absent key is false, the strings true and false
(case-insensitively) map to the booleans, any other nonempty string is
true; this field never produces a validation error. -/
def cleanSubscribe (v : Option String) : Bool :=
  match v with
  | none => false
  | some s =>
    let ls := pyLower s
    if ls = "true" then true
    else if ls = "false" then false
    else !(s == "")

instance : DecidableEq (Except String String) := fun a b =>
  match a, b with
  | Except.ok x, Except.ok y =>
    if h : x = y then isTrue (by rw [h]) else isFalse (by simp [h])
  | Except.ok _, Except.error _ => isFalse (by simp)
  | Except.error _, Except.ok _ => isFalse (by simp)
  | Except.error x, Except.error y =>
    if h : x = y then isTrue (by rw [h]) else isFalse (by simp [h])

/-- The per-field error entries a cleaning result contributes to the
error set of the form. -/
def fieldErr (k : String) : Except String String → List (String × String)
  | Except.error e => [(k, e)]
  | Except.ok _ => []

/-- The error set form.errors of a ContactForm bound to the given data:
field name paired with error code, in field declaration order. The
subscribe field never contributes (it is not required and its cleaning
cannot fail). -/
def formErrors (data : List (String × String)) : List (String × String) :=
  fieldErr "name" (cleanName (postGet data "name")) ++
  fieldErr "email" (cleanEmail (postGet data "email")) ++
  fieldErr "message" (cleanMessage (postGet data "message"))

/-- form.is_valid() of a bound ContactForm: no field produced an error. -/
def formIsValid (data : List (String × String)) : Bool :=
  (formErrors data).isEmpty

/-- form.cleaned_data of the name field, as the success branch reads it
(defaulting to the empty string, which a valid form never hits). -/
def cleanedName (data : List (String × String)) : String :=
  match cleanName (postGet data "name") with
  | Except.ok s => s
  | Except.error _ => ""

/-- The error set carried by a ContactForm instance: an unbound form has
no errors, a bound form has the errors of its data. -/
def instErrors : ContactForm → List (String × String)
  | ContactForm.unbound => []
  | ContactForm.bound d => formErrors d

/-- The bound data carried by a ContactForm instance, none when the form
is unbound. -/
def instData : ContactForm → Option (List (String × String))
  | ContactForm.unbound => none
  | ContactForm.bound d => some d

/-- The index view: a constant context with a user record and two
notification records, rendered with index.html. -/
def index (_req : HttpRequest) : Response :=
  { template := "index.html",
    context := [
      ("user", Val.obj [
        ("name", Val.str "John Doe"),
        ("email", Val.str "john@example.com"),
        ("role", Val.str "admin")]),
      ("notifications", Val.list [
        Val.obj [("id", Val.int 1), ("text", Val.str "Welcome to rnxJS!"),
          ("type", Val.str "info")],
        Val.obj [("id", Val.int 2), ("text", Val.str "You have 3 new messages"),
          ("type", Val.str "success")]])] }

/-- The form_example view: on POST bind the data; when valid render
form_success.html with only the cleaned name, otherwise fall through to
render form.html with the bound form; on any other method render
form.html with a fresh unbound form. -/
def form_example (req : HttpRequest) : Response :=
  if req.method = "POST" then
    if formIsValid req.postData then
      { template := "form_success.html",
        context := [("name", Val.str (cleanedName req.postData))] }
    else
      { template := "form.html",
        context := [("form", Val.form (ContactForm.bound req.postData))] }
  else
    { template := "form.html",
      context := [("form", Val.form ContactForm.unbound)] }

/-- The components_example view: a constant context with three user rows
and four column descriptors, rendered with components.html. -/
def components_example (_req : HttpRequest) : Response :=
  { template := "components.html",
    context := [
      ("users", Val.list [
        Val.obj [("id", Val.int 1), ("name", Val.str "Alice"),
          ("email", Val.str "alice@example.com"), ("status", Val.str "active")],
        Val.obj [("id", Val.int 2), ("name", Val.str "Bob"),
          ("email", Val.str "bob@example.com"), ("status", Val.str "inactive")],
        Val.obj [("id", Val.int 3), ("name", Val.str "Charlie"),
          ("email", Val.str "charlie@example.com"), ("status", Val.str "active")]]),
      ("columns", Val.list [
        Val.obj [("key", Val.str "id"), ("label", Val.str "ID")],
        Val.obj [("key", Val.str "name"), ("label", Val.str "Name")],
        Val.obj [("key", Val.str "email"), ("label", Val.str "Email")],
        Val.obj [("key", Val.str "status"), ("label", Val.str "Status")]])] }

/-- The plugins_example view: a constant context with a routes record of
four path-to-label pairs, rendered with plugins.html. -/
def plugins_example (_req : HttpRequest) : Response :=
  { template := "plugins.html",
    context := [
      ("routes", Val.obj [
        ("/", Val.str "Home"),
        ("/users", Val.str "Users"),
        ("/settings", Val.str "Settings"),
        ("/about", Val.str "About")])] }

/-- Look up a key in a response context (first binding, contexts here
have distinct keys). -/
def ctxGet (r : Response) (k : String) : Option Val :=
  (r.context.find? (fun p => p.1 == k)).map Prod.snd

/-- The ordered key list of a record value, none for other values. -/
def objKeys : Val → Option (List String)
  | Val.obj fs => some (fs.map Prod.fst)
  | _ => none

/-- Look up a key inside a record value. -/
def objGet (k : String) : Val → Option Val
  | Val.obj fs => (fs.find? (fun p => p.1 == k)).map Prod.snd
  | _ => none

/-- The element list of a list value, none for other values. -/
def listItems : Val → Option (List Val)
  | Val.list xs => some xs
  | _ => none

/-- The string carried by an optional string value, none otherwise. -/
def strVal : Option Val → Option String
  | some (Val.str s) => some s
  | _ => none

/-- The integer carried by an optional integer value, none otherwise. -/
def intVal : Option Val → Option Int
  | some (Val.int z) => some z
  | _ => none

/-- The valid example submission from the specification: name Ada, a
well-formed email, a nonempty message, subscribe unset. -/
def adaPost : List (String × String) :=
  [("name", "Ada"), ("email", "ada@example.com"), ("message", "hi")]

/-- A POST request carrying the valid example submission. -/
def adaReq : HttpRequest :=
  { method := "POST", postData := adaPost }

/-- The invalid example submission from the specification: empty name,
malformed email, empty message. -/
def badPost : List (String × String) :=
  [("name", ""), ("email", "not-an-email"), ("message", "")]

/-- A POST request carrying the invalid example submission. -/
def badReq : HttpRequest :=
  { method := "POST", postData := badPost }

/-- A name of exactly 100 characters. -/
def name100 : String :=
  String.mk (List.replicate 100 'a')

/-- A name of 101 characters. -/
def name101 : String :=
  String.mk (List.replicate 101 'a')

theorem fieldErr_key {k : String} {e : Except String String}
    {p : String × String} (h : p ∈ fieldErr k e) : p.1 = k := by
  cases e with
  | ok v => simp [fieldErr] at h
  | error msg =>
    simp [fieldErr] at h
    rw [h]

theorem pyStrip_all_whitespace {s : String}
    (hs : s.toList.all Char.isWhitespace = true) : pyStrip s = "" := by
  unfold pyStrip
  have h1 : s.toList.dropWhile Char.isWhitespace = [] := by
    rw [List.dropWhile_eq_nil_iff]
    intro x hx
    exact List.all_eq_true.mp hs x hx
  rw [h1]
  rfl

theorem cleanedName_of_valid {data : List (String × String)} {t : String}
    (hpost : postGet data "name" = some t) (hv : formIsValid data = true) :
    cleanedName data = pyStrip t := by
  have hemp : formErrors data = [] := by
    simpa [formIsValid, List.isEmpty_iff] using hv
  unfold formErrors at hemp
  have hn : fieldErr "name" (cleanName (postGet data "name")) = [] :=
    (List.append_eq_nil.mp (List.append_eq_nil.mp hemp).1).1
  rw [hpost] at hn
  unfold cleanedName
  rw [hpost]
  by_cases he : pyStrip t = ""
  · simp [cleanName, he, fieldErr] at hn
  · by_cases hl : 100 < (pyStrip t).length
    · simp [cleanName, he, hl, fieldErr] at hn
    · simp [cleanName, he, hl]

/-- C1: a POST whose fields validate renders the success template with a
context holding exactly the single key name bound to the validated
(cleaned) name; in particular the Ada submission yields exactly the
context name maps-to Ada. -/
theorem form_valid_post_success (req : HttpRequest) (hm : req.method = "POST")
    (hv : formIsValid req.postData = true) :
    form_example req =
      { template := "form_success.html",
        context := [("name", Val.str (cleanedName req.postData))] } ∧
    form_example adaReq =
      { template := "form_success.html",
        context := [("name", Val.str "Ada")] } := by
  constructor
  · simp [form_example, hm, hv]
  · rfl

theorem form_valid_post_success_witness :
    form_example adaReq =
      { template := "form_success.html",
        context := [("name", Val.str (cleanedName adaReq.postData))] } :=
  (form_valid_post_success adaReq rfl (by decide)).1

/-- C2: a POST whose fields fail validation re-renders the form template
with the same bound form (the embedding is total, so no exception is
possible), and on the example invalid submission the error set carries
field errors for name, email and message. -/
theorem form_invalid_post_rerenders (req : HttpRequest)
    (hm : req.method = "POST") (hv : formIsValid req.postData = false) :
    form_example req =
      { template := "form.html",
        context := [("form", Val.form (ContactForm.bound req.postData))] } ∧
    instErrors (ContactForm.bound req.postData) = formErrors req.postData ∧
    ("name", "required") ∈ instErrors (ContactForm.bound badPost) ∧
    ("email", "invalid") ∈ instErrors (ContactForm.bound badPost) ∧
    ("message", "required") ∈ instErrors (ContactForm.bound badPost) := by
  refine ⟨?_, rfl, by decide, by decide, by decide⟩
  simp [form_example, hm, hv]

theorem form_invalid_post_rerenders_witness :
    form_example badReq =
      { template := "form.html",
        context := [("form", Val.form (ContactForm.bound badReq.postData))] } :=
  (form_invalid_post_rerenders badReq rfl (by decide)).1

/-- C3: a request whose method is not POST gets a fresh unbound
ContactForm (no bound data, empty error set) rendered with the form
template. -/
theorem form_nonpost_unbound (req : HttpRequest) (hm : req.method ≠ "POST") :
    form_example req =
      { template := "form.html",
        context := [("form", Val.form ContactForm.unbound)] } ∧
    instData ContactForm.unbound = none ∧
    instErrors ContactForm.unbound = [] := by
  refine ⟨?_, rfl, rfl⟩
  simp [form_example, hm]

theorem form_nonpost_unbound_witness :
    form_example { method := "GET", postData := [] } =
      { template := "form.html",
        context := [("form", Val.form ContactForm.unbound)] } :=
  (form_nonpost_unbound { method := "GET", postData := [] } (by decide)).1

/-- C4: validation accepts a name whose stripped form has exactly 100
characters and rejects one of 101 or more; it rejects a missing name, a
missing or malformed email and a missing message; and no submission ever
produces an error on the subscribe field. -/
theorem contact_form_validation_rules :
    (∀ s : String, (pyStrip s).length = 100 →
      cleanName (some s) = Except.ok (pyStrip s)) ∧
    (∀ s : String, 100 < (pyStrip s).length →
      cleanName (some s) = Except.error "max_length") ∧
    cleanName none = Except.error "required" ∧
    cleanEmail none = Except.error "required" ∧
    (∀ s : String, validEmail (pyStrip s) = false →
      ∃ e, cleanEmail (some s) = Except.error e) ∧
    cleanMessage none = Except.error "required" ∧
    (∀ data : List (String × String), ∀ p ∈ formErrors data,
      p.1 ≠ "subscribe") := by
  refine ⟨?_, ?_, rfl, rfl, ?_, rfl, ?_⟩
  · intro s h
    have hne : pyStrip s ≠ "" := by
      intro he
      rw [he] at h
      exact absurd h (by decide)
    have hle : ¬ 100 < (pyStrip s).length := by omega
    simp [cleanName, hne, hle]
  · intro s h
    have hne : pyStrip s ≠ "" := by
      intro he
      rw [he] at h
      exact absurd h (by decide)
    simp [cleanName, hne, h]
  · intro s h
    by_cases he : pyStrip s = ""
    · exact ⟨"required", by simp [cleanEmail, he]⟩
    · exact ⟨"invalid", by simp [cleanEmail, he, h]⟩
  · intro data p hp
    rcases List.mem_append.mp hp with h12 | h3
    · rcases List.mem_append.mp h12 with h1 | h2
      · rw [fieldErr_key h1]
        decide
      · rw [fieldErr_key h2]
        decide
    · rw [fieldErr_key h3]
      decide

theorem contact_form_validation_rules_witness :
    cleanName (some name100) = Except.ok (pyStrip name100) ∧
    cleanName (some name101) = Except.error "max_length" ∧
    (∃ e, cleanEmail (some "not-an-email") = Except.error e) ∧
    ("name", "required").1 ≠ "subscribe" :=
  ⟨contact_form_validation_rules.1 name100 (by decide),
   contact_form_validation_rules.2.1 name101 (by decide),
   contact_form_validation_rules.2.2.2.2.1 "not-an-email" (by decide),
   contact_form_validation_rules.2.2.2.2.2.2 badPost ("name", "required")
     (by decide)⟩

/-- C5: the index context has a user record with exactly the keys name,
email, role (in order), and a two-element notifications list whose type
values are the literals info then success, for every request. -/
theorem index_context_shape (req : HttpRequest) :
    (ctxGet (index req) "user").bind objKeys =
      some ["name", "email", "role"] ∧
    ((ctxGet (index req) "notifications").bind listItems).map
        (fun xs => xs.map (fun v => strVal (objGet "type" v))) =
      some [some "info", some "success"] :=
  ⟨rfl, rfl⟩

theorem index_context_shape_witness :
    (ctxGet (index { method := "GET", postData := [] }) "user").bind objKeys =
      some ["name", "email", "role"] :=
  (index_context_shape { method := "GET", postData := [] }).1

/-- C6: the components context has a users list of length 3 whose every
row has status active or inactive, and a columns list of length 4 whose
keys are exactly id, name, email, status in that order, for every
request. -/
theorem components_context_shape (req : HttpRequest) :
    (∃ us, (ctxGet (components_example req) "users").bind listItems =
        some us ∧ us.length = 3 ∧
      ∀ v ∈ us, strVal (objGet "status" v) = some "active" ∨
        strVal (objGet "status" v) = some "inactive") ∧
    ((ctxGet (components_example req) "columns").bind listItems).map
        (fun xs => xs.map (fun v => strVal (objGet "key" v))) =
      some [some "id", some "name", some "email", some "status"] ∧
    ((ctxGet (components_example req) "columns").bind listItems).map
        List.length = some 4 := by
  refine ⟨⟨_, rfl, rfl, ?_⟩, rfl, rfl⟩
  decide

theorem components_context_shape_witness :
    ((ctxGet (components_example { method := "GET", postData := [] })
        "columns").bind listItems).map List.length = some 4 :=
  (components_context_shape { method := "GET", postData := [] }).2.2

/-- C7: the plugins context has a routes record with exactly 4 entries
whose keys are the paths root, users, settings, about, for every
request. -/
theorem plugins_context_shape (req : HttpRequest) :
    (ctxGet (plugins_example req) "routes").bind objKeys =
      some ["/", "/users", "/settings", "/about"] ∧
    ((ctxGet (plugins_example req) "routes").bind objKeys).map
        List.length = some 4 :=
  ⟨rfl, rfl⟩

theorem plugins_context_shape_witness :
    (ctxGet (plugins_example { method := "GET", postData := [] })
        "routes").bind objKeys = some ["/", "/users", "/settings", "/about"] :=
  (plugins_context_shape { method := "GET", postData := [] }).1

/-- C8: the index, components and plugins handlers ignore the request
entirely: any two requests produce identical responses (same template
and same context) from each of the three handlers. -/
theorem static_handlers_deterministic (r1 r2 : HttpRequest) :
    index r1 = index r2 ∧
    components_example r1 = components_example r2 ∧
    plugins_example r1 = plugins_example r2 :=
  ⟨rfl, rfl, rfl⟩

theorem static_handlers_deterministic_witness :
    index { method := "GET", postData := [] } =
      index { method := "POST", postData := [("x", "y")] } :=
  (static_handlers_deterministic { method := "GET", postData := [] }
    { method := "POST", postData := [("x", "y")] }).1

/-- C9: the id fields of the index notifications list and of the
components users list are integers and pairwise distinct, for every
request. -/
theorem handler_ids_distinct (req : HttpRequest) :
    (∃ ids : List (Option Int),
      ((ctxGet (index req) "notifications").bind listItems).map
          (fun xs => xs.map (fun v => intVal (objGet "id" v))) = some ids ∧
      ids.Nodup ∧ ids.all Option.isSome = true) ∧
    (∃ ids : List (Option Int),
      ((ctxGet (components_example req) "users").bind listItems).map
          (fun xs => xs.map (fun v => intVal (objGet "id" v))) = some ids ∧
      ids.Nodup ∧ ids.all Option.isSome = true) := by
  refine ⟨⟨[some 1, some 2], rfl, by decide, by decide⟩,
    ⟨[some 1, some 2, some 3], rfl, by decide, by decide⟩⟩

theorem handler_ids_distinct_witness :
    ∃ ids : List (Option Int),
      ((ctxGet (index { method := "GET", postData := [] })
          "notifications").bind listItems).map
        (fun xs => xs.map (fun v => intVal (objGet "id" v))) = some ids ∧
      ids.Nodup ∧ ids.all Option.isSome = true :=
  (handler_ids_distinct { method := "GET", postData := [] }).1

/-- C10: a name (or message) consisting solely of whitespace strips to
empty and fails validation exactly as a missing field does; and on a
valid POST the success context binds name to the whitespace-stripped
form of the submitted name. -/
theorem whitespace_fields_stripped (s : String)
    (hs : s.toList.all Char.isWhitespace = true) :
    cleanName (some s) = Except.error "required" ∧
    cleanMessage (some s) = Except.error "required" ∧
    cleanName (some s) = cleanName none ∧
    cleanMessage (some s) = cleanMessage none ∧
    (∀ (req : HttpRequest) (t : String), req.method = "POST" →
      postGet req.postData "name" = some t →
      formIsValid req.postData = true →
      form_example req =
        { template := "form_success.html",
          context := [("name", Val.str (pyStrip t))] }) := by
  have hz := pyStrip_all_whitespace hs
  have hcn : cleanName (some s) = Except.error "required" := by
    simp [cleanName, hz]
  have hcm : cleanMessage (some s) = Except.error "required" := by
    simp [cleanMessage, hz]
  refine ⟨hcn, hcm, hcn.trans (Eq.symm rfl), hcm.trans (Eq.symm rfl), ?_⟩
  intro req t hm hpost hv
  have h1 : form_example req =
      { template := "form_success.html",
        context := [("name", Val.str (cleanedName req.postData))] } := by
    simp [form_example, hm, hv]
  rw [h1, cleanedName_of_valid hpost hv]

theorem whitespace_fields_stripped_witness :
    cleanName (some "   ") = Except.error "required" ∧
    form_example
        { method := "POST",
          postData := [("name", "  Ada  "), ("email", "ada@example.com"),
            ("message", "hi")] } =
      { template := "form_success.html",
        context := [("name", Val.str (pyStrip "  Ada  "))] } :=
  ⟨(whitespace_fields_stripped "   " (by decide)).1,
   (whitespace_fields_stripped "   " (by decide)).2.2.2.2
     { method := "POST",
       postData := [("name", "  Ada  "), ("email", "ada@example.com"),
         ("message", "hi")] } "  Ada  " rfl (by decide) (by decide)⟩

end RnxViews
